import Mathlib

/-!
# The `jx namespace` command

A shallow embedding of `pkg/cmd/namespace/namespace.go`: the command that shows
or switches the current namespace of the kube configuration.

The collaborators of the command (the cluster client, `clientcmd.ModifyConfig`,
the interactive picker, the loaders of the configuration) are not part of the
repository.  Each is an entry of `Env`, an arbitrary function from the arguments
of the call to its result.  Every collaborator is called at most once in a run,
so a function of the arguments is as general as a stateful collaborator.  Each
call is recorded, in order, in a list of `Event`s, and so is each log line.
-/

namespace Jx

/-! ## Errors and control flow -/

/-- The type `metav1.StatusReason`, a string. -/
abbrev StatusReason := String

/-- The constant `metav1.StatusReasonNotFound`. -/
def StatusReasonNotFound : StatusReason := "NotFound"

/-- A Go `error` value, by the way it was built.  `status` is a value of dynamic
type `*apierrors.StatusError`; `other` is an error value of any other type that
a collaborator returns; the rest are the wrappers the command applies. -/
inductive Err where
  | status (reason : StatusReason) (message : String)
  | other (message : String)
  | wrap (cause : Err) (message : String)
  | wrapf (cause : Err) (format : String) (arg : String)
  | errorf (format : String) (arg : Err)
  deriving DecidableEq, Repr

/-- The classification of a lookup error as not-found: a status error whose
reason is NotFound. -/
def Err.isNotFound : Err → Bool
  | .status reason _ => decide (reason = StatusReasonNotFound)
  | _ => false

/-- The type switch of `changeNamespace`: the error is a `*apierrors.StatusError`. -/
def Err.isStatus : Err → Bool
  | .status _ _ => true
  | _ => false

/-- How a call ends: it returns a value, it ends the process (`os.Exit`), or it
panics (a nil pointer dereference). -/
inductive Outcome (α : Type) where
  | returned (a : α)
  | exited (code : Nat)
  | panicked
  deriving DecidableEq, Repr

/-! ## The kube configuration (`clientcmd/api`) -/

/-- The struct `api.Context`. -/
structure Context where
  LocationOfOrigin : String
  Cluster : String
  AuthInfo : String
  Namespace : String
  deriving DecidableEq, Repr

/-- The struct `api.Cluster`, with the fields the command reads. -/
structure Cluster where
  LocationOfOrigin : String
  Server : String
  deriving DecidableEq, Repr

/-- The struct `api.Config`.  A Go map from names to pointers is a list of
bindings read with `lookup`; a name without binding, and a name bound to nil,
both read as `none`.  Distinct names hold distinct objects, as
`kubeclient.LoadConfig` builds them. -/
structure Config where
  Kind : String
  APIVersion : String
  Clusters : List (String × Cluster)
  AuthInfos : List (String × String)
  Contexts : List (String × Context)
  CurrentContext : String
  deriving DecidableEq, Repr

/-- The Go map read `m[name]`. -/
def lookup {β : Type} (name : String) : List (String × β) → Option β
  | [] => none
  | (k, v) :: rest => if k = name then some v else lookup name rest

/-- A write through the pointer that `m[name]` holds: the object bound to `name`
becomes `v`, every other binding stays. -/
def store {β : Type} (name : String) (v : β) : List (String × β) → List (String × β)
  | [] => []
  | (k, w) :: rest => if k = name then (k, v) :: rest else (k, w) :: store name v rest

/-- The function `kube.CurrentContext` of jx-helpers: the context that
`CurrentContext` names, nil when the name is empty or not bound. -/
def CurrentContext (config : Config) : Option Context :=
  if config.CurrentContext ≠ "" then lookup config.CurrentContext config.Contexts else none

/-- The function `kube.Server` of jx-helpers: the server of the cluster of a
context, the empty string when there is none. -/
def Server (config : Config) (context : Option Context) : String :=
  match context with
  | none => ""
  | some c =>
    match lookup c.Cluster config.Clusters with
    | none => ""
    | some cluster => cluster.Server

/-- The function `kube.CurrentServer` of jx-helpers. -/
def CurrentServer (config : Config) : String :=
  Server config (CurrentContext config)

/-! ## Collaborators and their calls -/

/-- The struct `corev1.Namespace`, with its name and phase. -/
structure Namespace where
  Name : String
  Phase : String
  deriving DecidableEq, Repr

/-- The struct `Options`; the client and the picker are entries of `Env`. -/
structure Options where
  Args : List String
  Create : Bool
  QuiteMode : Bool
  BatchMode : Bool
  deriving DecidableEq, Repr

/-- One observable step of a run: a call to a collaborator or a log line. -/
inductive Event where
  | get (ns : String)
  | create (ns : String)
  | list
  | modifyConfig (cfg : Config) (relativizePaths : Bool)
  | pickNameWithDefault (names : List String) (message defaultValue help : String)
  | infof (format : String) (args : List String)
  | warnf (format : String) (args : List String)
  deriving DecidableEq, Repr

/-- True on a call to `Namespaces().Get`. -/
def Event.isGet : Event → Bool
  | .get _ => true
  | _ => false

/-- True on a call to `Namespaces().Create`. -/
def Event.isCreate : Event → Bool
  | .create _ => true
  | _ => false

/-- True on a call to `Namespaces().List`. -/
def Event.isList : Event → Bool
  | .list => true
  | _ => false

/-- True on a call to `clientcmd.ModifyConfig`. -/
def Event.isModifyConfig : Event → Bool
  | .modifyConfig _ _ => true
  | _ => false

/-- True on a call to the picker. -/
def Event.isPick : Event → Bool
  | .pickNameWithDefault _ _ _ _ => true
  | _ => false

/-- The results of the collaborators.  An `Option Err` is a Go `error`
(`none` is nil).  `createKubeConfig` gives, when it does not fail, whether the
`*rest.Config` it returns is not nil. -/
structure Env where
  get : String → Option Err
  create : String → Option Err
  list : Except Err (List Namespace)
  modifyConfig : Config → Bool → Option Err
  pickNameWithDefault : List String → String → String → String → String × Option Err
  lazyCreateKubeClientAndNamespace : Except Err String
  createKubeConfig : Except Err Bool
  loadConfig : Except Err Config

/-! ## `changeNamespace` and its helpers -/

/-- The function `createNamespace`. -/
def createNamespace (env : Env) (ns : String) : Option Err × List Event :=
  match env.create ns with
  | some err => (some (.wrapf err "unable to create namespace %s" ns), [.create ns])
  | none => (none, [.create ns])

/-- The function `handleStatusError`.  On an error that is no status error the
type assertion yields nil and `statusErr.Status()` panics. -/
def handleStatusError (env : Env) (err : Err) (ns : String) (create quietMode : Bool) :
    Outcome (Option Err) × List Event :=
  match err with
  | .status reason _ =>
    if reason = StatusReasonNotFound then
      if quietMode then
        (.exited 0, [.infof "namespace %s does not exist yet" [ns]])
      else if create then
        match createNamespace env ns with
        | (some e, evs) => (.returned (some e), evs)
        | (none, evs) => (.returned none, evs)
      else
        (.returned none, [])
    else
      (.returned (some err), [])
  | _ => (.panicked, [])

/-- What `changeNamespace` yields: how it ended (with the context and the error
it returned), the configuration in memory afterwards, and the steps it made. -/
structure ChangeResult where
  outcome : Outcome (Option Context × Option Err)
  config : Config
  events : List Event
  deriving DecidableEq, Repr

/-- Lines 152 to 166 of `changeNamespace`: what follows the lookup.  `newConfig`
is a copy of the struct that shares the map of contexts with `config`, so the
write `ctx.Namespace = ns` shows in both. -/
def changeNamespace.update (env : Env) (config : Config) (ns : String) : ChangeResult :=
  match CurrentContext config with
  | none =>
    ⟨.returned (none, none), config,
      [.warnf "there is no context defined in your Kubernetes configuration - we may be inside a test case or pod?\n" []]⟩
  | some ctx =>
    if ctx.Namespace = ns then
      ⟨.returned (some ctx, none), config, []⟩
    else
      let ctx1 : Context := { ctx with Namespace := ns }
      let newConfig : Config :=
        { config with Contexts := store config.CurrentContext ctx1 config.Contexts }
      match env.modifyConfig newConfig false with
      | some err =>
        ⟨.returned (none, some (.errorf "failed to update the kube config %s" err)), newConfig,
          [.modifyConfig newConfig false]⟩
      | none => ⟨.returned (some ctx1, none), newConfig, [.modifyConfig newConfig false]⟩

/-- The function `changeNamespace`. -/
def changeNamespace (env : Env) (config : Config) (ns : String) (create quietMode : Bool) :
    ChangeResult :=
  match env.get ns with
  | none =>
    let r := changeNamespace.update env config ns
    { r with events := .get ns :: r.events }
  | some err =>
    match err with
    | .status _ _ =>
      match handleStatusError env err ns create quietMode with
      | (.returned (some e), evs) => ⟨.returned (none, some e), config, .get ns :: evs⟩
      | (.returned none, evs) =>
        let r := changeNamespace.update env config ns
        { r with events := .get ns :: (evs ++ r.events) }
      | (.exited code, evs) => ⟨.exited code, config, .get ns :: evs⟩
      | (.panicked, evs) => ⟨.panicked, config, .get ns :: evs⟩
    | _ => ⟨.returned (none, some (.wrapf err "getting namespace %q" ns)), config, [.get ns]⟩

/-! ## Listing and picking -/

/-- The bytes of a Go string: its UTF-8 encoding. -/
def utf8Bytes (s : String) : List Nat :=
  s.data.flatMap (fun c => (String.utf8EncodeChar c).map UInt8.toNat)

/-- Go's `a <= b` on strings, byte by byte. -/
def bytesLe : List Nat → List Nat → Bool
  | [], _ => true
  | _ :: _, [] => false
  | a :: as, b :: bs => if a < b then true else if b < a then false else bytesLe as bs

/-- The order of Go strings that `sort.Strings` sorts by. -/
def stringLe (a b : String) : Prop := bytesLe (utf8Bytes a) (utf8Bytes b) = true

instance stringLe.decidable : DecidableRel stringLe :=
  fun a b => inferInstanceAs (Decidable (bytesLe (utf8Bytes a) (utf8Bytes b) = true))

/-- The library function `sort.Strings`, which puts the slice in increasing
order; the model sorts by insertion. -/
def sortStrings (names : List String) : List String :=
  names.insertionSort stringLe

/-- The function `getNamespaceNames`. -/
def getNamespaceNames (env : Env) : (List String × Option Err) × List Event :=
  match env.list with
  | .error err => (([], some (.errorf "loading namespaces %s" err)), [.list])
  | .ok items =>
    let names := items.foldl (fun names item => names ++ [item.Name]) []
    ((sortStrings names, none), [.list])

/-- The function `pick`. -/
def pick (env : Env) (names : List String) (defaultNamespace : String) :
    (String × Option Err) × List Event :=
  match names with
  | [] => (("", none), [])
  | [name] => ((name, none), [])
  | _ =>
    (env.pickNameWithDefault names "Change namespace:" defaultNamespace
        "pick the kubernetes namespace for the current kubernetes cluster",
      [.pickNameWithDefault names "Change namespace:" defaultNamespace
        "pick the kubernetes namespace for the current kubernetes cluster"])

/-- The function `pickNamespace`. -/
def pickNamespace (env : Env) (defaultNamespace : String) :
    (String × Option Err) × List Event :=
  match getNamespaceNames env with
  | ((_, some err), evs) =>
    (("", some (.wrap err "retrieving namespace the names of the namespaces")), evs)
  | ((names, none), evs) =>
    match pick env names defaultNamespace with
    | ((_, some err), evs2) => (("", some (.wrap err "picking the namespace")), evs ++ evs2)
    | ((selectedNamespace, none), evs2) => ((selectedNamespace, none), evs ++ evs2)

/-! ## `Run` -/

/-- The function `namespace`: the first positional argument, or the empty
string. -/
def namespaceArg (o : Options) : String :=
  match o.Args with
  | [] => ""
  | arg :: _ => arg

/-- Lines 96 to 102 of `Run`: the target namespace, its error, and the steps
made to resolve it. -/
def Run.target (env : Env) (o : Options) (currentNS : String) :
    (String × Option Err) × List Event :=
  let ns := namespaceArg o
  if ns = "" ∧ o.BatchMode = false then
    pickNamespace env currentNS
  else
    ((ns, none), [])

/-- What `Run` yields: how it ended (with the error it returned), the
configuration in memory, when one was loaded, and the steps it made. -/
structure RunResult where
  outcome : Outcome (Option Err)
  config : Option Config
  events : List Event
  deriving DecidableEq, Repr

/-- Lines 104 to 127 of `Run`: the switch to `ns` or the report of the current
namespace.  `config` tells whether `CreateKubeConfig` gave a configuration that
is not nil.  The arguments of a log line are recorded before
`termcolor.ColorInfo` colours them. -/
def Run.switch (env : Env) (o : Options) (currentNS : String) (config : Bool) (cfg : Config)
    (ns : String) : RunResult :=
  if ns ≠ "" ∧ ns ≠ currentNS then
    let r := changeNamespace env cfg ns o.Create o.QuiteMode
    match r.outcome with
    | .returned (_, some err) => ⟨.returned (some err), some r.config, r.events⟩
    | .returned (none, none) =>
      ⟨.returned none, some r.config,
        r.events ++ [.infof "No kube context - probably in a unit test or pod?\n" []]⟩
    | .returned (some ctx, none) =>
      ⟨.returned none, some r.config,
        r.events ++ [.infof "Now using namespace '%s' on server '%s'.\n"
          [ctx.Namespace, Server r.config (some ctx)]]⟩
    | .exited code => ⟨.exited code, some r.config, r.events⟩
    | .panicked => ⟨.panicked, some r.config, r.events⟩
  else
    let ns1 := if currentNS ≠ "" then currentNS else ns
    let server := CurrentServer cfg
    if config = false then
      ⟨.returned none, some cfg,
        [.infof "Using namespace '%s' on server '%s'. No context - probably a unit test or pod?\n"
          [ns1, server]]⟩
    else
      ⟨.returned none, some cfg,
        [.infof "Using namespace '%s' from context named '%s' on server '%s'.\n"
          [ns1, cfg.CurrentContext, server]]⟩

/-- The function `Run`. -/
def Run (env : Env) (o : Options) : RunResult :=
  match env.lazyCreateKubeClientAndNamespace with
  | .error err => ⟨.returned (some (.wrap err "creating kubernetes client")), none, []⟩
  | .ok currentNS =>
    match env.createKubeConfig with
    | .error err => ⟨.returned (some (.wrap err "creating kubernetes configuration")), none, []⟩
    | .ok config =>
      match env.loadConfig with
      | .error err =>
        ⟨.returned (some (.wrap err "loading Kubernetes configuration")), none, []⟩
      | .ok cfg =>
        match Run.target env o currentNS with
        | ((_, some err), evs) => ⟨.returned (some err), some cfg, evs⟩
        | ((ns, none), evs) =>
          let r := Run.switch env o currentNS config cfg ns
          { r with events := evs ++ r.events }

/-! ## Sample inputs -/

/-- A configuration with two contexts; the current one, `ctx-a`, is on `dev`. -/
def sampleConfig : Config :=
  { Kind := "Config", APIVersion := "v1",
    Clusters := [("gke", ⟨"", "https://10.0.0.1"⟩)],
    AuthInfos := [("admin", "token")],
    Contexts := [("ctx-a", ⟨"", "gke", "admin", "dev"⟩), ("ctx-b", ⟨"", "gke", "admin", "staging"⟩)],
    CurrentContext := "ctx-a" }

/-- The current context of `sampleConfig`. -/
def sampleContext : Context := ⟨"", "gke", "admin", "dev"⟩

/-- A configuration whose current context name is bound to nothing. -/
def noContextConfig : Config := { sampleConfig with CurrentContext := "" }

/-- Collaborators that answer `Get` with `getResult` and `Create` with
`createResult`, list three namespaces, accept every write, and pick the
default. -/
def sampleEnv (getResult createResult : Option Err) : Env :=
  { get := fun _ => getResult
    create := fun _ => createResult
    list := .ok [⟨"prod", "Active"⟩, ⟨"dev", "Active"⟩, ⟨"jx", "Active"⟩]
    modifyConfig := fun _ _ => none
    pickNameWithDefault := fun _ _ d _ => (d, none)
    lazyCreateKubeClientAndNamespace := .ok "dev"
    createKubeConfig := .ok true
    loadConfig := .ok sampleConfig }

/-- The status error of a namespace that is not on the cluster. -/
def notFoundErr : Err := .status StatusReasonNotFound "namespaces not found"

/-- The status error of a lookup the caller may not make. -/
def forbiddenErr : Err := .status "Forbidden" "namespaces is forbidden"

/-! ## Lemmas on the map of contexts -/

theorem lookup_store_self {β : Type} (name : String) (v : β) (m : List (String × β))
    (h : lookup name m ≠ none) : lookup name (store name v m) = some v := by
  induction m with
  | nil => simp [lookup] at h
  | cons kv rest ih =>
    obtain ⟨k, w⟩ := kv
    by_cases hk : k = name
    · simp [store, lookup, hk]
    · simp only [lookup, hk, if_false] at h
      simp [store, lookup, hk, ih h]

theorem lookup_store_ne {β : Type} (name other : String) (v : β) (m : List (String × β))
    (h : other ≠ name) : lookup other (store name v m) = lookup other m := by
  induction m with
  | nil => simp [store]
  | cons kv rest ih =>
    obtain ⟨k, w⟩ := kv
    by_cases hk : k = name
    · subst hk
      simp [store, lookup, Ne.symm h]
    · by_cases hko : k = other
      · subst hko
        simp [store, lookup, h]
      · simp [store, lookup, hk, hko, ih]

theorem store_keys {β : Type} (name : String) (v : β) (m : List (String × β)) :
    (store name v m).map Prod.fst = m.map Prod.fst := by
  induction m with
  | nil => simp [store]
  | cons kv rest ih =>
    obtain ⟨k, w⟩ := kv
    by_cases hk : k = name
    · simp [store, hk]
    · simp [store, hk, ih]

/-- The configuration after the write has the new context as its current one. -/
theorem currentContext_store (config : Config) (ctx c : Context)
    (h : CurrentContext config = some ctx) :
    CurrentContext { config with Contexts := store config.CurrentContext c config.Contexts }
      = some c := by
  unfold CurrentContext at h ⊢
  by_cases hn : config.CurrentContext = ""
  · simp [hn] at h
  · simp only [ne_eq, hn, not_false_eq_true, if_true] at h ⊢
    exact lookup_store_self _ _ _ (by simp [h])

/-! ## Lemmas on `changeNamespace` -/

/-- The steps after the lookup hold no call to `Create`. -/
theorem update_no_create (env : Env) (config : Config) (ns : String) :
    (changeNamespace.update env config ns).events.filter Event.isCreate = [] := by
  unfold changeNamespace.update
  cases CurrentContext config with
  | none => simp [Event.isCreate]
  | some ctx =>
    by_cases hns : ctx.Namespace = ns
    · simp [hns]
    · simp only [hns, if_false]
      split <;> simp [Event.isCreate]

/-- On the namespace the current context is on, the steps after the lookup
return the context and write nothing. -/
theorem update_same (env : Env) (config : Config) (ctx : Context) (ns : String)
    (hctx : CurrentContext config = some ctx) (hns : ctx.Namespace = ns) :
    changeNamespace.update env config ns = ⟨.returned (some ctx, none), config, []⟩ := by
  simp [changeNamespace.update, hctx, hns]

/-- A run of `changeNamespace` either goes on to the steps after the lookup,
after steps that are no write, or it stops at the lookup: then it leaves the
configuration, does not return without error, and writes nothing. -/
theorem changeNamespace_cases (env : Env) (config : Config) (ns : String)
    (create quietMode : Bool) :
    (∃ evs : List Event, (∀ e ∈ evs, e.isModifyConfig = false) ∧
      changeNamespace env config ns create quietMode =
        { changeNamespace.update env config ns with
          events := evs ++ (changeNamespace.update env config ns).events }) ∨
    ((changeNamespace env config ns create quietMode).config = config ∧
      (∀ c, (changeNamespace env config ns create quietMode).outcome ≠ .returned (c, none)) ∧
      ∀ e ∈ (changeNamespace env config ns create quietMode).events, e.isModifyConfig = false) := by
  unfold changeNamespace
  cases hget : env.get ns with
  | none =>
    left
    exact ⟨[.get ns], by simp [Event.isModifyConfig], by simp⟩
  | some err =>
    cases err with
    | status reason msg =>
      by_cases hr : reason = StatusReasonNotFound
      · cases quietMode with
        | true => right; simp [handleStatusError, hr, Event.isModifyConfig]
        | false =>
          cases create with
          | false =>
            left
            exact ⟨[.get ns], by simp [Event.isModifyConfig], by simp [handleStatusError, hr]⟩
          | true =>
            cases hc : env.create ns with
            | none =>
              left
              exact ⟨[.get ns, .create ns], by simp [Event.isModifyConfig],
                by simp [handleStatusError, hr, createNamespace, hc]⟩
            | some e =>
              right
              simp [handleStatusError, hr, createNamespace, hc, Event.isModifyConfig]
      · right
        simp [handleStatusError, hr, Event.isModifyConfig]
    | other m => right; simp [Event.isModifyConfig]
    | wrap c m => right; simp [Event.isModifyConfig]
    | wrapf c f a => right; simp [Event.isModifyConfig]
    | errorf f a => right; simp [Event.isModifyConfig]

/-! ## The claims on `changeNamespace` -/

/-- C1, at a failing input: the namespace `cheese` is not on the cluster, the
lookup fails with a status error of reason NotFound, and neither `create` nor
`quietMode` is set.  `handleStatusError` returns nil, so `changeNamespace`
returns no error: it writes the configuration once, with the current context on
`cheese`, and returns that context. -/
theorem changeNamespace_notFound_without_flags :
    changeNamespace (sampleEnv (some notFoundErr) none) sampleConfig "cheese" false false =
      { outcome := .returned (some { sampleContext with Namespace := "cheese" }, none)
        config := { sampleConfig with
          Contexts := [("ctx-a", ⟨"", "gke", "admin", "cheese"⟩),
                       ("ctx-b", ⟨"", "gke", "admin", "staging"⟩)] }
        events := [.get "cheese",
          .modifyConfig { sampleConfig with
            Contexts := [("ctx-a", ⟨"", "gke", "admin", "cheese"⟩),
                         ("ctx-b", ⟨"", "gke", "admin", "staging"⟩)] } false] } := by
  decide

/-- C2: on a configuration whose current context is on another namespace than
`ns`, when the lookup of `ns` succeeds and the store accepts the write,
`changeNamespace` calls `ModifyConfig` exactly once, with a configuration whose
current context is the old one with `Namespace` set to `ns`, and whose name of
the current context, other contexts, names of contexts and other fields are
those of the input; it returns the updated context and no error. -/
theorem changeNamespace_persists_once (env : Env) (config : Config) (ctx : Context)
    (ns : String) (create quietMode : Bool)
    (hctx : CurrentContext config = some ctx) (hns : ctx.Namespace ≠ ns)
    (hget : env.get ns = none) (hstore : ∀ cfg, env.modifyConfig cfg false = none) :
    ∃ newConfig : Config,
      (changeNamespace env config ns create quietMode).events
        = [.get ns, .modifyConfig newConfig false] ∧
      ((changeNamespace env config ns create quietMode).events.filter
        Event.isModifyConfig).length = 1 ∧
      CurrentContext newConfig = some { ctx with Namespace := ns } ∧
      newConfig.CurrentContext = config.CurrentContext ∧
      (∀ name, name ≠ config.CurrentContext →
        lookup name newConfig.Contexts = lookup name config.Contexts) ∧
      newConfig.Contexts.map Prod.fst = config.Contexts.map Prod.fst ∧
      newConfig.Clusters = config.Clusters ∧ newConfig.AuthInfos = config.AuthInfos ∧
      newConfig.Kind = config.Kind ∧ newConfig.APIVersion = config.APIVersion ∧
      (changeNamespace env config ns create quietMode).outcome
        = .returned (some { ctx with Namespace := ns }, none) ∧
      (changeNamespace env config ns create quietMode).config = newConfig := by
  refine ⟨{ config with Contexts := store config.CurrentContext { ctx with Namespace := ns } config.Contexts }, ?_⟩
  have hrun : changeNamespace env config ns create quietMode =
      ⟨.returned (some { ctx with Namespace := ns }, none),
        { config with Contexts := store config.CurrentContext { ctx with Namespace := ns } config.Contexts },
        [.get ns, .modifyConfig { config with Contexts := store config.CurrentContext { ctx with Namespace := ns } config.Contexts } false]⟩ := by
    simp [changeNamespace, changeNamespace.update, hget, hctx, hns, hstore]
  rw [hrun]
  refine ⟨rfl, by simp [Event.isModifyConfig], currentContext_store config ctx _ hctx, rfl,
    ?_, store_keys _ _ _, rfl, rfl, rfl, rfl, rfl, rfl⟩
  intro name hname
  exact lookup_store_ne _ _ _ _ hname

/-- C2 at `sampleConfig`, from `dev` to `prod`. -/
theorem changeNamespace_persists_once_witness :
    ∃ newConfig : Config,
      (changeNamespace (sampleEnv none none) sampleConfig "prod" false false).events
        = [.get "prod", .modifyConfig newConfig false] ∧
      ((changeNamespace (sampleEnv none none) sampleConfig "prod" false false).events.filter
        Event.isModifyConfig).length = 1 ∧
      CurrentContext newConfig = some { sampleContext with Namespace := "prod" } ∧
      newConfig.CurrentContext = sampleConfig.CurrentContext ∧
      (∀ name, name ≠ sampleConfig.CurrentContext →
        lookup name newConfig.Contexts = lookup name sampleConfig.Contexts) ∧
      newConfig.Contexts.map Prod.fst = sampleConfig.Contexts.map Prod.fst ∧
      newConfig.Clusters = sampleConfig.Clusters ∧
      newConfig.AuthInfos = sampleConfig.AuthInfos ∧
      newConfig.Kind = sampleConfig.Kind ∧ newConfig.APIVersion = sampleConfig.APIVersion ∧
      (changeNamespace (sampleEnv none none) sampleConfig "prod" false false).outcome
        = .returned (some { sampleContext with Namespace := "prod" }, none) ∧
      (changeNamespace (sampleEnv none none) sampleConfig "prod" false false).config
        = newConfig :=
  changeNamespace_persists_once (sampleEnv none none) sampleConfig sampleContext "prod"
    false false (by decide) (by decide) rfl (fun _ => rfl)

/-- C3, as the claim states it, fails: `dev` is the namespace of the current
context, the lookup of `dev` fails with a status error of reason Forbidden, and
`changeNamespace` returns a nil context and that error, not the current
context with no error. -/
theorem changeNamespace_same_namespace_lookup_fails :
    CurrentContext sampleConfig = some sampleContext ∧ sampleContext.Namespace = "dev" ∧
    (changeNamespace (sampleEnv (some forbiddenErr) none) sampleConfig "dev" false false).outcome
      = .returned (none, some forbiddenErr) ∧
    (changeNamespace (sampleEnv (some forbiddenErr) none) sampleConfig "dev" false false).outcome
      ≠ .returned (some sampleContext, none) := by
  decide

/-- C3, amended.  For a target `ns` equal to the namespace of the current
context, `changeNamespace` never calls `ModifyConfig` and leaves the
configuration, whatever the lookup answers; when the lookup finds `ns`, or
answers NotFound with `create` set, `quietMode` unset and a `Create` that
succeeds, it returns the current context unchanged with no error.  Hence after
a `changeNamespace` to `ns` that returned no error, a further `changeNamespace`
to `ns` on the configuration it left, with `ns` found, calls `ModifyConfig` no
time, leaves the configuration, and returns what the first call returned. -/
theorem changeNamespace_idempotent :
    (∀ (env : Env) (config : Config) (ctx : Context) (ns : String) (create quietMode : Bool),
      CurrentContext config = some ctx → ctx.Namespace = ns →
      ((∀ e ∈ (changeNamespace env config ns create quietMode).events,
          e.isModifyConfig = false) ∧
        (changeNamespace env config ns create quietMode).config = config ∧
        ((env.get ns = none ∨
            (∃ msg, env.get ns = some (.status StatusReasonNotFound msg)) ∧
              create = true ∧ quietMode = false ∧ env.create ns = none) →
          (changeNamespace env config ns create quietMode).outcome
            = .returned (some ctx, none)))) ∧
    (∀ (env1 env2 : Env) (config : Config) (ns : String) (create1 quiet1 create2 quiet2 : Bool)
      (c : Option Context),
      (changeNamespace env1 config ns create1 quiet1).outcome = .returned (c, none) →
      env2.get ns = none →
      ((∀ e ∈ (changeNamespace env2 (changeNamespace env1 config ns create1 quiet1).config
            ns create2 quiet2).events, e.isModifyConfig = false) ∧
        (changeNamespace env2 (changeNamespace env1 config ns create1 quiet1).config
            ns create2 quiet2).config
          = (changeNamespace env1 config ns create1 quiet1).config ∧
        (changeNamespace env2 (changeNamespace env1 config ns create1 quiet1).config
            ns create2 quiet2).outcome = .returned (c, none))) := by
  constructor
  · intro env config ctx ns create quietMode hctx hns
    have hupd := update_same env config ctx ns hctx hns
    rcases changeNamespace_cases env config ns create quietMode with ⟨evs, hevs, hrun⟩ | ⟨h1, _, h3⟩
    · rw [hrun, hupd]
      refine ⟨by simpa using hevs, rfl, fun _ => rfl⟩
    · refine ⟨h3, h1, ?_⟩
      rintro (hget | ⟨⟨msg, hget⟩, hc, hq, hcr⟩)
      · simp [changeNamespace, hget, hupd]
      · subst hc hq
        simp [changeNamespace, hget, handleStatusError, createNamespace, hcr, hupd]
  · intro env1 env2 config ns create1 quiet1 create2 quiet2 c hok hget2
    have hsecond : ∀ cfg : Config, changeNamespace env2 cfg ns create2 quiet2 =
        { changeNamespace.update env2 cfg ns with
          events := .get ns :: (changeNamespace.update env2 cfg ns).events } := by
      intro cfg
      simp [changeNamespace, hget2]
    rcases changeNamespace_cases env1 config ns create1 quiet1 with ⟨evs, _, hrun⟩ | ⟨_, h2, _⟩
    · rw [hrun] at hok ⊢
      simp only at hok ⊢
      rw [hsecond]
      unfold changeNamespace.update at hok ⊢
      cases hcc : CurrentContext config with
      | none =>
        simp only [hcc] at hok ⊢
        simp only [Outcome.returned.injEq, Prod.mk.injEq] at hok
        simp [hcc, Event.isModifyConfig, ← hok.1]
      | some ctx =>
        simp only [hcc] at hok ⊢
        by_cases hns : ctx.Namespace = ns
        · simp only [hns, if_true] at hok ⊢
          simp only [Outcome.returned.injEq, Prod.mk.injEq] at hok
          simp [hcc, hns, Event.isModifyConfig, ← hok.1]
        · simp only [hns, if_false] at hok ⊢
          cases hm : env1.modifyConfig { config with Contexts := store config.CurrentContext { ctx with Namespace := ns } config.Contexts } false with
          | some err => simp [hm] at hok
          | none =>
            simp only [hm] at hok ⊢
            simp only [Outcome.returned.injEq, Prod.mk.injEq] at hok
            have hcur := currentContext_store config ctx { ctx with Namespace := ns } hcc
            simp [hcur, Event.isModifyConfig, ← hok.1]
    · exact absurd hok (h2 c)

/-- C3, amended, at `sampleConfig`: a switch to `dev` while on `dev`, and a
second switch to `prod` after a first one. -/
theorem changeNamespace_idempotent_witness :
    ((∀ e ∈ (changeNamespace (sampleEnv none none) sampleConfig "dev" false false).events,
        e.isModifyConfig = false) ∧
      (changeNamespace (sampleEnv none none) sampleConfig "dev" false false).config
        = sampleConfig ∧
      (changeNamespace (sampleEnv none none) sampleConfig "dev" false false).outcome
        = .returned (some sampleContext, none)) ∧
    ((∀ e ∈ (changeNamespace (sampleEnv none none)
          (changeNamespace (sampleEnv none none) sampleConfig "prod" false false).config
          "prod" false false).events, e.isModifyConfig = false) ∧
      (changeNamespace (sampleEnv none none)
          (changeNamespace (sampleEnv none none) sampleConfig "prod" false false).config
          "prod" false false).config
        = (changeNamespace (sampleEnv none none) sampleConfig "prod" false false).config ∧
      (changeNamespace (sampleEnv none none)
          (changeNamespace (sampleEnv none none) sampleConfig "prod" false false).config
          "prod" false false).outcome
        = .returned (some { sampleContext with Namespace := "prod" }, none)) :=
  ⟨⟨(changeNamespace_idempotent.1 (sampleEnv none none) sampleConfig sampleContext "dev"
        false false (by decide) rfl).1,
      (changeNamespace_idempotent.1 (sampleEnv none none) sampleConfig sampleContext "dev"
        false false (by decide) rfl).2.1,
      (changeNamespace_idempotent.1 (sampleEnv none none) sampleConfig sampleContext "dev"
        false false (by decide) rfl).2.2 (Or.inl rfl)⟩,
    changeNamespace_idempotent.2 (sampleEnv none none) (sampleEnv none none) sampleConfig
      "prod" false false false false (some { sampleContext with Namespace := "prod" })
      (by decide) rfl⟩

/-- C4: when the lookup of `ns` fails with a status error of reason NotFound and
`quietMode` is set, for either value of `create`, `changeNamespace` ends the
process with status 0 after the lookup and one log line: it returns no error,
and calls neither `Create` nor `ModifyConfig`; the configuration is left. -/
theorem changeNamespace_quiet_exits (env : Env) (config : Config) (ns msg : String)
    (create : Bool) (hget : env.get ns = some (.status StatusReasonNotFound msg)) :
    (changeNamespace env config ns create true).outcome = .exited 0 ∧
    (∀ c e, (changeNamespace env config ns create true).outcome ≠ .returned (c, some e)) ∧
    (changeNamespace env config ns create true).events
      = [.get ns, .infof "namespace %s does not exist yet" [ns]] ∧
    (∀ e ∈ (changeNamespace env config ns create true).events,
      e.isCreate = false ∧ e.isModifyConfig = false) ∧
    (changeNamespace env config ns create true).config = config := by
  have hrun : changeNamespace env config ns create true =
      ⟨.exited 0, config, [.get ns, .infof "namespace %s does not exist yet" [ns]]⟩ := by
    simp [changeNamespace, hget, handleStatusError]
  rw [hrun]
  simp [Event.isCreate, Event.isModifyConfig]

/-- C4 at `sampleConfig`, for `cheese`, with `create` set as well. -/
theorem changeNamespace_quiet_exits_witness :
    (changeNamespace (sampleEnv (some notFoundErr) none) sampleConfig "cheese" true true).outcome
      = .exited 0 ∧
    (∀ c e, (changeNamespace (sampleEnv (some notFoundErr) none) sampleConfig "cheese"
      true true).outcome ≠ .returned (c, some e)) ∧
    (changeNamespace (sampleEnv (some notFoundErr) none) sampleConfig "cheese" true true).events
      = [.get "cheese", .infof "namespace %s does not exist yet" ["cheese"]] ∧
    (∀ e ∈ (changeNamespace (sampleEnv (some notFoundErr) none) sampleConfig "cheese"
      true true).events, e.isCreate = false ∧ e.isModifyConfig = false) ∧
    (changeNamespace (sampleEnv (some notFoundErr) none) sampleConfig "cheese" true true).config
      = sampleConfig :=
  changeNamespace_quiet_exits (sampleEnv (some notFoundErr) none) sampleConfig "cheese"
    "namespaces not found" true rfl

/-- C5: when the lookup of `ns` fails with a status error of reason NotFound,
`create` is set and `quietMode` is not, `changeNamespace` makes exactly one
`Create` call, for `ns`.  When it fails with `e`, the result is a nil context
and `e` wrapped with "unable to create namespace %s" for `ns`, after the
lookup and the `Create` only, and the configuration is left.  When it succeeds,
the context and error returned, the configuration left and the steps after
`Create` are those of the run in which the lookup finds `ns`. -/
theorem changeNamespace_creates_missing (env : Env) (config : Config) (ns msg : String)
    (hget : env.get ns = some (.status StatusReasonNotFound msg)) :
    (changeNamespace env config ns true false).events.filter Event.isCreate = [.create ns] ∧
    (∀ e, env.create ns = some e →
      (changeNamespace env config ns true false).outcome
        = .returned (none, some (.wrapf e "unable to create namespace %s" ns)) ∧
      (changeNamespace env config ns true false).events = [.get ns, .create ns] ∧
      (changeNamespace env config ns true false).config = config) ∧
    (env.create ns = none →
      (changeNamespace env config ns true false).outcome
        = (changeNamespace { env with get := fun _ => none } config ns true false).outcome ∧
      (changeNamespace env config ns true false).config
        = (changeNamespace { env with get := fun _ => none } config ns true false).config ∧
      ∃ rest,
        (changeNamespace { env with get := fun _ => none } config ns true false).events
          = .get ns :: rest ∧
        (changeNamespace env config ns true false).events = .get ns :: .create ns :: rest) := by
  have hfound : changeNamespace { env with get := fun _ => none } config ns true false =
      { changeNamespace.update env config ns with
        events := .get ns :: (changeNamespace.update env config ns).events } := by
    simp [changeNamespace, changeNamespace.update]
  cases hc : env.create ns with
  | some e =>
    have hrun : changeNamespace env config ns true false =
        ⟨.returned (none, some (.wrapf e "unable to create namespace %s" ns)), config,
          [.get ns, .create ns]⟩ := by
      simp [changeNamespace, hget, handleStatusError, createNamespace, hc]
    rw [hrun]
    simp [Event.isCreate]
  | none =>
    have hrun : changeNamespace env config ns true false =
        { changeNamespace.update env config ns with
          events := .get ns :: .create ns :: (changeNamespace.update env config ns).events } := by
      simp [changeNamespace, hget, handleStatusError, createNamespace, hc]
    rw [hrun, hfound]
    simp [Event.isCreate, update_no_create]

/-- C5 at `sampleConfig`, for `brie`: with a `Create` that the cluster
refuses, and with a `Create` that succeeds. -/
theorem changeNamespace_creates_missing_witness :
    ((changeNamespace (sampleEnv (some notFoundErr) (some (.other "quota exceeded")))
        sampleConfig "brie" true false).events.filter Event.isCreate = [.create "brie"] ∧
      (changeNamespace (sampleEnv (some notFoundErr) (some (.other "quota exceeded")))
          sampleConfig "brie" true false).outcome
        = .returned (none,
            some (.wrapf (.other "quota exceeded") "unable to create namespace %s" "brie")) ∧
      (changeNamespace (sampleEnv (some notFoundErr) (some (.other "quota exceeded")))
          sampleConfig "brie" true false).events = [.get "brie", .create "brie"] ∧
      (changeNamespace (sampleEnv (some notFoundErr) (some (.other "quota exceeded")))
          sampleConfig "brie" true false).config = sampleConfig) ∧
    ((changeNamespace (sampleEnv (some notFoundErr) none) sampleConfig "brie"
        true false).events.filter Event.isCreate = [.create "brie"] ∧
      (changeNamespace (sampleEnv (some notFoundErr) none) sampleConfig "brie" true false).outcome
        = (changeNamespace { sampleEnv (some notFoundErr) none with get := fun _ => none }
            sampleConfig "brie" true false).outcome ∧
      (changeNamespace (sampleEnv (some notFoundErr) none) sampleConfig "brie" true false).config
        = (changeNamespace { sampleEnv (some notFoundErr) none with get := fun _ => none }
            sampleConfig "brie" true false).config ∧
      ∃ rest,
        (changeNamespace { sampleEnv (some notFoundErr) none with get := fun _ => none }
            sampleConfig "brie" true false).events = .get "brie" :: rest ∧
        (changeNamespace (sampleEnv (some notFoundErr) none) sampleConfig "brie"
            true false).events = .get "brie" :: .create "brie" :: rest) :=
  ⟨⟨(changeNamespace_creates_missing
        (sampleEnv (some notFoundErr) (some (.other "quota exceeded")))
        sampleConfig "brie" "namespaces not found" rfl).1,
      (changeNamespace_creates_missing
        (sampleEnv (some notFoundErr) (some (.other "quota exceeded")))
        sampleConfig "brie" "namespaces not found" rfl).2.1 (.other "quota exceeded") rfl⟩,
    ⟨(changeNamespace_creates_missing (sampleEnv (some notFoundErr) none)
        sampleConfig "brie" "namespaces not found" rfl).1,
      (changeNamespace_creates_missing (sampleEnv (some notFoundErr) none)
        sampleConfig "brie" "namespaces not found" rfl).2.2 rfl⟩⟩

/-- C6, as the claim states it, fails: the lookup of `prod` fails with a status
error of reason Forbidden, which is not classified as not-found, and
`changeNamespace` returns that status error itself, wrapped with no message. -/
theorem changeNamespace_forbidden_not_wrapped :
    forbiddenErr.isNotFound = false ∧
    (changeNamespace (sampleEnv (some forbiddenErr) none) sampleConfig "prod" false false).outcome
      = .returned (none, some forbiddenErr) ∧
    (∀ cause format arg,
      (changeNamespace (sampleEnv (some forbiddenErr) none) sampleConfig "prod"
        false false).outcome ≠ .returned (none, some (.wrapf cause format arg))) := by
  refine ⟨by decide, by decide, ?_⟩
  intro cause format arg
  have h : (changeNamespace (sampleEnv (some forbiddenErr) none) sampleConfig "prod"
      false false).outcome = .returned (none, some forbiddenErr) := by decide
  rw [h]
  simp [forbiddenErr]

/-- C6, amended.  When the lookup of `ns` fails with an error that is not
classified as not-found, for every value of `create` and `quietMode`,
`changeNamespace` returns a nil context and an error right after the lookup,
with no `Create` and no `ModifyConfig` call, and leaves the configuration.  The
error is the lookup error wrapped with "getting namespace %q" for `ns` when it
is no status error, and the status error itself, not wrapped, when it is one. -/
theorem changeNamespace_lookup_error (env : Env) (config : Config) (ns : String) (err : Err)
    (create quietMode : Bool)
    (hget : env.get ns = some err) (hnf : err.isNotFound = false) :
    (changeNamespace env config ns create quietMode).events = [.get ns] ∧
    (∀ e ∈ (changeNamespace env config ns create quietMode).events,
      e.isCreate = false ∧ e.isModifyConfig = false) ∧
    (changeNamespace env config ns create quietMode).config = config ∧
    (err.isStatus = false →
      (changeNamespace env config ns create quietMode).outcome
        = .returned (none, some (.wrapf err "getting namespace %q" ns))) ∧
    (err.isStatus = true →
      (changeNamespace env config ns create quietMode).outcome = .returned (none, some err)) := by
  cases err with
  | status reason msg =>
    have hr : reason ≠ StatusReasonNotFound := by simpa [Err.isNotFound] using hnf
    have hrun : changeNamespace env config ns create quietMode =
        ⟨.returned (none, some (.status reason msg)), config, [.get ns]⟩ := by
      simp [changeNamespace, hget, handleStatusError, hr]
    rw [hrun]
    simp [Event.isCreate, Event.isModifyConfig, Err.isStatus]
  | other m =>
    simp [changeNamespace, hget, Event.isCreate, Event.isModifyConfig, Err.isStatus]
  | wrap c m =>
    simp [changeNamespace, hget, Event.isCreate, Event.isModifyConfig, Err.isStatus]
  | wrapf c f a =>
    simp [changeNamespace, hget, Event.isCreate, Event.isModifyConfig, Err.isStatus]
  | errorf f a =>
    simp [changeNamespace, hget, Event.isCreate, Event.isModifyConfig, Err.isStatus]

/-- C6, amended, at `sampleConfig`: a lookup of `prod` that times out, and a
lookup of `prod` that is forbidden. -/
theorem changeNamespace_lookup_error_witness :
    ((changeNamespace (sampleEnv (some (.other "i/o timeout")) none) sampleConfig "prod"
        true false).events = [.get "prod"] ∧
      (changeNamespace (sampleEnv (some (.other "i/o timeout")) none) sampleConfig "prod"
        true false).config = sampleConfig ∧
      (changeNamespace (sampleEnv (some (.other "i/o timeout")) none) sampleConfig "prod"
        true false).outcome
        = .returned (none, some (.wrapf (.other "i/o timeout") "getting namespace %q" "prod"))) ∧
    ((changeNamespace (sampleEnv (some forbiddenErr) none) sampleConfig "prod"
        true false).events = [.get "prod"] ∧
      (changeNamespace (sampleEnv (some forbiddenErr) none) sampleConfig "prod"
        true false).config = sampleConfig ∧
      (changeNamespace (sampleEnv (some forbiddenErr) none) sampleConfig "prod"
        true false).outcome = .returned (none, some forbiddenErr)) :=
  ⟨⟨(changeNamespace_lookup_error (sampleEnv (some (.other "i/o timeout")) none) sampleConfig
        "prod" (.other "i/o timeout") true false rfl rfl).1,
      (changeNamespace_lookup_error (sampleEnv (some (.other "i/o timeout")) none) sampleConfig
        "prod" (.other "i/o timeout") true false rfl rfl).2.2.1,
      (changeNamespace_lookup_error (sampleEnv (some (.other "i/o timeout")) none) sampleConfig
        "prod" (.other "i/o timeout") true false rfl rfl).2.2.2.1 rfl⟩,
    ⟨(changeNamespace_lookup_error (sampleEnv (some forbiddenErr) none) sampleConfig
        "prod" forbiddenErr true false rfl (by decide)).1,
      (changeNamespace_lookup_error (sampleEnv (some forbiddenErr) none) sampleConfig
        "prod" forbiddenErr true false rfl (by decide)).2.2.1,
      (changeNamespace_lookup_error (sampleEnv (some forbiddenErr) none) sampleConfig
        "prod" forbiddenErr true false rfl (by decide)).2.2.2.2 rfl⟩⟩

/-- C7: on a configuration with no current context (the name of the current
context is empty, or bound to no context), when the lookup of `ns` succeeds,
`changeNamespace` returns a nil context and no error, calls `ModifyConfig` no
time, and leaves the configuration. -/
theorem changeNamespace_no_context (env : Env) (config : Config) (ns : String)
    (create quietMode : Bool)
    (hnone : config.CurrentContext = "" ∨ lookup config.CurrentContext config.Contexts = none)
    (hget : env.get ns = none) :
    (changeNamespace env config ns create quietMode).outcome = .returned (none, none) ∧
    (∀ e ∈ (changeNamespace env config ns create quietMode).events,
      e.isModifyConfig = false) ∧
    (changeNamespace env config ns create quietMode).config = config := by
  have hcc : CurrentContext config = none := by
    unfold CurrentContext
    rcases hnone with h | h
    · simp [h]
    · simp [h]
  simp [changeNamespace, changeNamespace.update, hget, hcc, Event.isModifyConfig]

/-- C7 at a configuration whose name of the current context is empty. -/
theorem changeNamespace_no_context_witness :
    (changeNamespace (sampleEnv none none) noContextConfig "prod" false false).outcome
      = .returned (none, none) ∧
    (∀ e ∈ (changeNamespace (sampleEnv none none) noContextConfig "prod" false false).events,
      e.isModifyConfig = false) ∧
    (changeNamespace (sampleEnv none none) noContextConfig "prod" false false).config
      = noContextConfig :=
  changeNamespace_no_context (sampleEnv none none) noContextConfig "prod" false false
    (Or.inl rfl) rfl

/-! ## The claims on listing and target resolution -/

theorem bytesLe_total (a b : List Nat) : bytesLe a b = true ∨ bytesLe b a = true := by
  induction a generalizing b with
  | nil => simp [bytesLe]
  | cons x xs ih =>
    cases b with
    | nil => simp [bytesLe]
    | cons y ys =>
      rcases Nat.lt_trichotomy x y with h | h | h
      · simp [bytesLe, h]
      · subst h
        simpa [bytesLe] using ih ys
      · right
        simp [bytesLe, h]

theorem bytesLe_trans (a b c : List Nat) (hab : bytesLe a b = true) (hbc : bytesLe b c = true) :
    bytesLe a c = true := by
  induction a generalizing b c with
  | nil => simp [bytesLe]
  | cons x xs ih =>
    cases b with
    | nil => simp [bytesLe] at hab
    | cons y ys =>
      cases c with
      | nil => simp [bytesLe] at hbc
      | cons z zs =>
        simp only [bytesLe] at hab hbc ⊢
        by_cases hxy : x < y
        · by_cases hyz : y < z
          · simp [Nat.lt_trans hxy hyz]
          · simp only [hyz, if_false] at hbc
            by_cases hzy : z < y
            · simp [hzy] at hbc
            · have hyz2 : y = z := by omega
              subst hyz2
              simp [hxy]
        · simp only [hxy, if_false] at hab
          by_cases hyx : y < x
          · simp [hyx] at hab
          · have hxy2 : x = y := by omega
            subst hxy2
            simp only [hyx, if_false] at hab
            by_cases hxz : x < z
            · simp [hxz]
            · simp only [hxz, if_false] at hbc ⊢
              by_cases hzx : z < x
              · simp [hzx] at hbc
              · simp only [hzx, if_false] at hbc ⊢
                exact ih ys zs hab hbc

/-- The loop of `getNamespaceNames` collects the names in the order of the
items. -/
theorem names_foldl (items : List Namespace) (acc : List String) :
    items.foldl (fun names item => names ++ [item.Name]) acc
      = acc ++ items.map (fun item => item.Name) := by
  induction items generalizing acc with
  | nil => simp
  | cons item rest ih => simp [ih]

/-- C9: for every list of namespace objects that the cluster returns,
`getNamespaceNames` returns, with no error and after the one `List` call, a
list of names in increasing order of Go strings that is a permutation of the
names of the objects, of the same length. -/
theorem getNamespaceNames_sorted (env : Env) (items : List Namespace)
    (hlist : env.list = .ok items) :
    ∃ names : List String,
      getNamespaceNames env = ((names, none), [.list]) ∧
      names.Sorted stringLe ∧
      names.Perm (items.map (fun item => item.Name)) ∧
      names.length = items.length := by
  haveI : IsTotal String stringLe := ⟨fun a b => bytesLe_total _ _⟩
  haveI : IsTrans String stringLe := ⟨fun a b c => bytesLe_trans _ _ _⟩
  refine ⟨sortStrings (items.map (fun item => item.Name)), ?_, ?_, ?_, ?_⟩
  · simp [getNamespaceNames, hlist, names_foldl]
  · exact List.sorted_insertionSort stringLe _
  · exact List.perm_insertionSort stringLe _
  · simp [sortStrings, List.length_insertionSort]

/-- C9 on the three namespaces that `sampleEnv` lists, `prod`, `dev` and `jx`. -/
theorem getNamespaceNames_sorted_witness :
    ∃ names : List String,
      getNamespaceNames (sampleEnv none none) = ((names, none), [.list]) ∧
      names.Sorted stringLe ∧
      names.Perm ([⟨"prod", "Active"⟩, ⟨"dev", "Active"⟩, ⟨"jx", "Active"⟩].map
        (fun item : Namespace => item.Name)) ∧
      names.length = [(⟨"prod", "Active"⟩ : Namespace), ⟨"dev", "Active"⟩, ⟨"jx", "Active"⟩].length :=
  getNamespaceNames_sorted (sampleEnv none none)
    [⟨"prod", "Active"⟩, ⟨"dev", "Active"⟩, ⟨"jx", "Active"⟩] rfl

/-- The function `pickNamespace` makes the `List` call, and after it at most
the picker call. -/
theorem pickNamespace_events (env : Env) (defaultNamespace : String) :
    ∃ rest, (pickNamespace env defaultNamespace).2 = .list :: rest ∧
      (rest = [] ∨ ∃ names message defaultValue help,
        rest = [.pickNameWithDefault names message defaultValue help]) := by
  unfold pickNamespace getNamespaceNames
  cases env.list with
  | error err => exact ⟨[], rfl, Or.inl rfl⟩
  | ok items =>
    simp only
    generalize sortStrings (items.foldl (fun names item => names ++ [item.Name]) []) = names
    unfold pick
    match names with
    | [] => exact ⟨[], rfl, Or.inl rfl⟩
    | [name] => exact ⟨[], rfl, Or.inl rfl⟩
    | a :: b :: rest =>
      simp only
      cases hp : env.pickNameWithDefault (a :: b :: rest) "Change namespace:" defaultNamespace
        "pick the kubernetes namespace for the current kubernetes cluster" with
      | mk selected err =>
        cases err with
        | none => exact ⟨_, rfl, Or.inr ⟨_, _, _, _, rfl⟩⟩
        | some e => exact ⟨_, rfl, Or.inr ⟨_, _, _, _, rfl⟩⟩

/-- The first positional argument is absent or empty. -/
theorem namespaceArg_empty (o : Options) :
    namespaceArg o = "" ↔ (o.Args = [] ∨ o.Args.head? = some "") := by
  unfold namespaceArg
  cases o.Args with
  | nil => simp
  | cons arg rest => simp

/-- The target resolution is `pickNamespace` when the argument is absent or
empty and the batch mode is off, and the argument with no step otherwise. -/
theorem target_eq (env : Env) (o : Options) (currentNS : String) :
    (namespaceArg o = "" ∧ o.BatchMode = false →
      Run.target env o currentNS = pickNamespace env currentNS) ∧
    (¬ (namespaceArg o = "" ∧ o.BatchMode = false) →
      Run.target env o currentNS = ((namespaceArg o, none), [])) := by
  unfold Run.target
  constructor
  · intro h
    simp only
    rw [if_pos h]
  · intro h
    simp only
    rw [if_neg h]

/-- The steps of the target resolution are `List` calls and picker calls. -/
theorem target_events (env : Env) (o : Options) (currentNS : String) :
    ∀ e ∈ (Run.target env o currentNS).2,
      e.isGet = false ∧ e.isCreate = false ∧ e.isModifyConfig = false := by
  by_cases hcond : namespaceArg o = "" ∧ o.BatchMode = false
  · rw [(target_eq env o currentNS).1 hcond]
    obtain ⟨rest, hrest, hshape⟩ := pickNamespace_events env currentNS
    rw [hrest]
    intro e he
    rcases List.mem_cons.1 he with rfl | he
    · simp [Event.isGet, Event.isCreate, Event.isModifyConfig]
    · rcases hshape with rfl | ⟨names, message, defaultValue, help, rfl⟩
      · simp at he
      · rcases List.mem_singleton.1 he with rfl
        simp [Event.isGet, Event.isCreate, Event.isModifyConfig]
  · rw [(target_eq env o currentNS).2 hcond]
    simp

/-- The steps after the lookup are no `List` call and no picker call. -/
theorem update_no_listing (env : Env) (config : Config) (ns : String) :
    ∀ e ∈ (changeNamespace.update env config ns).events, e.isList = false ∧ e.isPick = false := by
  unfold changeNamespace.update
  cases CurrentContext config with
  | none => simp [Event.isList, Event.isPick]
  | some ctx =>
    by_cases hns : ctx.Namespace = ns
    · simp [hns]
    · simp only [hns, if_false]
      split <;> simp [Event.isList, Event.isPick]

/-- A property of the lookup, of the `Create` call, of every log line and of
the steps after the lookup holds of every step of `changeNamespace`. -/
theorem changeNamespace_events (P : Event → Prop) (env : Env) (config : Config) (ns : String)
    (create quietMode : Bool) (hget : P (.get ns)) (hcreate : P (.create ns))
    (hinfo : ∀ format args, P (.infof format args))
    (hupd : ∀ e ∈ (changeNamespace.update env config ns).events, P e) :
    ∀ e ∈ (changeNamespace env config ns create quietMode).events, P e := by
  have hone : ∀ e ∈ [Event.get ns], P e := by
    intro e he
    rcases List.mem_singleton.1 he with rfl
    exact hget
  cases hg : env.get ns with
  | none =>
    have hrun : (changeNamespace env config ns create quietMode).events
        = .get ns :: (changeNamespace.update env config ns).events := by
      simp [changeNamespace, hg]
    rw [hrun]
    intro e he
    rcases List.mem_cons.1 he with rfl | he
    · exact hget
    · exact hupd e he
  | some err =>
    cases err with
    | status reason msg =>
      by_cases hr : reason = StatusReasonNotFound
      · cases quietMode with
        | true =>
          have hrun : (changeNamespace env config ns create true).events
              = [.get ns, .infof "namespace %s does not exist yet" [ns]] := by
            simp [changeNamespace, hg, handleStatusError, hr]
          rw [hrun]
          intro e he
          rcases List.mem_cons.1 he with rfl | he
          · exact hget
          · rcases List.mem_singleton.1 he with rfl
            exact hinfo _ _
        | false =>
          cases create with
          | false =>
            have hrun : (changeNamespace env config ns false false).events
                = .get ns :: (changeNamespace.update env config ns).events := by
              simp [changeNamespace, hg, handleStatusError, hr]
            rw [hrun]
            intro e he
            rcases List.mem_cons.1 he with rfl | he
            · exact hget
            · exact hupd e he
          | true =>
            cases hc : env.create ns with
            | none =>
              have hrun : (changeNamespace env config ns true false).events
                  = .get ns :: .create ns :: (changeNamespace.update env config ns).events := by
                simp [changeNamespace, hg, handleStatusError, hr, createNamespace, hc]
              rw [hrun]
              intro e he
              rcases List.mem_cons.1 he with rfl | he
              · exact hget
              · rcases List.mem_cons.1 he with rfl | he
                · exact hcreate
                · exact hupd e he
            | some e =>
              have hrun : (changeNamespace env config ns true false).events
                  = [.get ns, .create ns] := by
                simp [changeNamespace, hg, handleStatusError, hr, createNamespace, hc]
              rw [hrun]
              intro e he
              rcases List.mem_cons.1 he with rfl | he
              · exact hget
              · rcases List.mem_singleton.1 he with rfl
                exact hcreate
      · have hrun : (changeNamespace env config ns create quietMode).events = [.get ns] := by
          simp [changeNamespace, hg, handleStatusError, hr]
        rw [hrun]
        exact hone
    | other m =>
      have hrun : (changeNamespace env config ns create quietMode).events = [.get ns] := by
        simp [changeNamespace, hg]
      rw [hrun]
      exact hone
    | wrap c m =>
      have hrun : (changeNamespace env config ns create quietMode).events = [.get ns] := by
        simp [changeNamespace, hg]
      rw [hrun]
      exact hone
    | wrapf c f a =>
      have hrun : (changeNamespace env config ns create quietMode).events = [.get ns] := by
        simp [changeNamespace, hg]
      rw [hrun]
      exact hone
    | errorf f a =>
      have hrun : (changeNamespace env config ns create quietMode).events = [.get ns] := by
        simp [changeNamespace, hg]
      rw [hrun]
      exact hone

/-- The function `changeNamespace` makes no `List` call and no picker call. -/
theorem changeNamespace_no_listing (env : Env) (config : Config) (ns : String)
    (create quietMode : Bool) :
    ∀ e ∈ (changeNamespace env config ns create quietMode).events,
      e.isList = false ∧ e.isPick = false :=
  changeNamespace_events (fun e => e.isList = false ∧ e.isPick = false) env config ns create
    quietMode (by simp [Event.isList, Event.isPick]) (by simp [Event.isList, Event.isPick])
    (by simp [Event.isList, Event.isPick]) (update_no_listing env config ns)

/-- The steps of `Run` after the target resolution are no `List` call and no
picker call. -/
theorem switch_no_listing (env : Env) (o : Options) (currentNS : String) (config : Bool)
    (cfg : Config) (ns : String) :
    ∀ e ∈ (Run.switch env o currentNS config cfg ns).events,
      e.isList = false ∧ e.isPick = false := by
  have hch := changeNamespace_no_listing env cfg ns o.Create o.QuiteMode
  have hlog : ∀ (format : String) (args : List String),
      ∀ e ∈ (changeNamespace env cfg ns o.Create o.QuiteMode).events ++ [Event.infof format args],
        e.isList = false ∧ e.isPick = false := by
    intro format args e he
    rcases List.mem_append.1 he with he | he
    · exact hch e he
    · rcases List.mem_singleton.1 he with rfl
      simp [Event.isList, Event.isPick]
  unfold Run.switch
  by_cases hcond : ns ≠ "" ∧ ns ≠ currentNS
  · rw [if_pos hcond]
    simp only
    split
    · exact hch
    · exact hlog _ _
    · exact hlog _ _
    · exact hch
    · exact hch
  · rw [if_neg hcond]
    simp only
    split <;> simp [Event.isList, Event.isPick]

/-- The steps of `Run` are those of the target resolution and then steps that
are no `List` call and no picker call; before the target resolution `Run` makes
no step. -/
theorem Run_events (env : Env) (o : Options) :
    (Run env o).events = [] ∨
    ∃ currentNS config cfg rest,
      env.lazyCreateKubeClientAndNamespace = .ok currentNS ∧
      env.createKubeConfig = .ok config ∧ env.loadConfig = .ok cfg ∧
      (Run env o).events = (Run.target env o currentNS).2 ++ rest ∧
      ∀ e ∈ rest, e.isList = false ∧ e.isPick = false := by
  unfold Run
  cases h1 : env.lazyCreateKubeClientAndNamespace with
  | error err => left; rfl
  | ok currentNS =>
    cases h2 : env.createKubeConfig with
    | error err => left; rfl
    | ok config =>
      cases h3 : env.loadConfig with
      | error err => left; rfl
      | ok cfg =>
        right
        refine ⟨currentNS, config, cfg, ?_⟩
        simp only
        rcases ht : Run.target env o currentNS with ⟨⟨ns, err⟩, evs⟩
        cases err with
        | some e => exact ⟨[], trivial, trivial, trivial, by simp, by simp⟩
        | none =>
          exact ⟨(Run.switch env o currentNS config cfg ns).events, trivial, trivial, trivial,
            rfl, switch_no_listing env o currentNS config cfg ns⟩

/-- C8: in `Run`, with a first positional argument that is not empty the target
is that argument and the resolution makes no step, whatever the batch mode;
in batch mode with no argument, or an empty one, the target is the empty
string and the resolution makes no step.  The resolution makes the `List` call
if and only if the argument is absent or empty and the batch mode is off, and
the picker call only then.  So does `Run` as a whole: it makes a `List` or a
picker call only then, and it makes the `List` call then, once the client and
the configuration are loaded. -/
theorem Run_target_resolution (env : Env) (o : Options) :
    (∀ currentNS arg, o.Args.head? = some arg → arg ≠ "" →
      Run.target env o currentNS = ((arg, none), [])) ∧
    (∀ currentNS, o.BatchMode = true → (o.Args = [] ∨ o.Args.head? = some "") →
      Run.target env o currentNS = (("", none), [])) ∧
    (∀ currentNS, (∃ e ∈ (Run.target env o currentNS).2, e.isList = true) ↔
      ((o.Args = [] ∨ o.Args.head? = some "") ∧ o.BatchMode = false)) ∧
    (∀ currentNS, (∃ e ∈ (Run.target env o currentNS).2, e.isPick = true) →
      ((o.Args = [] ∨ o.Args.head? = some "") ∧ o.BatchMode = false)) ∧
    ((∃ e ∈ (Run env o).events, e.isList = true ∨ e.isPick = true) →
      ((o.Args = [] ∨ o.Args.head? = some "") ∧ o.BatchMode = false)) ∧
    (∀ currentNS config cfg, env.lazyCreateKubeClientAndNamespace = .ok currentNS →
      env.createKubeConfig = .ok config → env.loadConfig = .ok cfg →
      (o.Args = [] ∨ o.Args.head? = some "") → o.BatchMode = false →
      ∃ e ∈ (Run env o).events, e.isList = true) := by
  have hoff : ∀ currentNS, ¬ ((o.Args = [] ∨ o.Args.head? = some "") ∧ o.BatchMode = false) →
      (Run.target env o currentNS).2 = [] := by
    intro currentNS h
    rw [← namespaceArg_empty] at h
    rw [(target_eq env o currentNS).2 h]
  have hon : ∀ currentNS, (o.Args = [] ∨ o.Args.head? = some "") ∧ o.BatchMode = false →
      ∃ e ∈ (Run.target env o currentNS).2, e.isList = true := by
    intro currentNS h
    rw [← namespaceArg_empty] at h
    rw [(target_eq env o currentNS).1 h]
    obtain ⟨rest, hrest, _⟩ := pickNamespace_events env currentNS
    rw [hrest]
    exact ⟨.list, by simp, rfl⟩
  refine ⟨?_, ?_, ?_, ?_, ?_, ?_⟩
  · intro currentNS arg harg hne
    have hcond : ¬ (namespaceArg o = "" ∧ o.BatchMode = false) := by
      intro h
      rcases (namespaceArg_empty o).1 h.1 with h0 | h0
      · simp [h0] at harg
      · rw [h0] at harg
        exact hne (Option.some.inj harg).symm
    rw [(target_eq env o currentNS).2 hcond]
    unfold namespaceArg
    cases hargs : o.Args with
    | nil => simp [hargs] at harg
    | cons a rest =>
      simp only [hargs, List.head?_cons, Option.some.injEq] at harg
      simp [harg]
  · intro currentNS hb hargs
    have hcond : ¬ (namespaceArg o = "" ∧ o.BatchMode = false) := by
      intro h
      simp [hb] at h
    rw [(target_eq env o currentNS).2 hcond, (namespaceArg_empty o).2 hargs]
  · intro currentNS
    constructor
    · intro h
      by_contra hc
      rw [hoff currentNS hc] at h
      simp at h
    · exact hon currentNS
  · intro currentNS h
    by_contra hc
    rw [hoff currentNS hc] at h
    simp at h
  · rintro ⟨e, he, hkind⟩
    rcases Run_events env o with h0 | ⟨currentNS, config, cfg, rest, _, _, _, hev, hrest⟩
    · rw [h0] at he
      simp at he
    · by_contra hc
      rw [hev, hoff currentNS hc] at he
      have := hrest e (by simpa using he)
      rcases hkind with hk | hk
      · rw [this.1] at hk
        exact Bool.false_ne_true hk
      · rw [this.2] at hk
        exact Bool.false_ne_true hk
  · intro currentNS config cfg h1 h2 h3 hargs hb
    rcases Run_events env o with h0 | ⟨currentNS2, config2, cfg2, rest, h1b, _, _, hev, _⟩
    · exfalso
      have hne : (Run env o).events ≠ [] := by
        unfold Run
        simp only [h1, h2, h3]
        obtain ⟨e, he, _⟩ := hon currentNS ⟨hargs, hb⟩
        rcases ht : Run.target env o currentNS with ⟨⟨ns, err⟩, evs⟩
        rw [ht] at he
        cases err with
        | some e2 =>
          simp only
          exact List.ne_nil_of_mem he
        | none =>
          simp only
          exact List.ne_nil_of_mem (List.mem_append_left _ he)
      exact hne h0
    · rw [h1] at h1b
      cases h1b
      obtain ⟨e, he, hl⟩ := hon currentNS ⟨hargs, hb⟩
      exact ⟨e, by rw [hev]; exact List.mem_append_left _ he, hl⟩

/-- C8 at two command lines: `jx ns cheese`, off and in batch mode, resolves
to `cheese` with no step; `jx --batch-mode ns` resolves to the empty string
with no step. -/
theorem Run_target_resolution_witness :
    Run.target (sampleEnv none none) ⟨["cheese"], false, false, false⟩ "dev"
      = (("cheese", none), []) ∧
    Run.target (sampleEnv none none) ⟨["cheese"], false, false, true⟩ "dev"
      = (("cheese", none), []) ∧
    Run.target (sampleEnv none none) ⟨[], false, false, true⟩ "dev" = (("", none), []) :=
  ⟨(Run_target_resolution (sampleEnv none none) ⟨["cheese"], false, false, false⟩).1
      "dev" "cheese" rfl (by decide),
    (Run_target_resolution (sampleEnv none none) ⟨["cheese"], false, false, true⟩).1
      "dev" "cheese" rfl (by decide),
    (Run_target_resolution (sampleEnv none none) ⟨[], false, false, true⟩).2.1
      "dev" rfl (Or.inl rfl)⟩

/-- C10: in a run of `Run` that resolves a target that is empty or is the
current namespace `currentNS`, `Run` returns no error, leaves the
configuration, makes no lookup, no `Create` call and no `ModifyConfig` call, so
`changeNamespace` is not entered, and its one log line after the target
resolution reports `currentNS` as the namespace. -/
theorem Run_view_read_only (env : Env) (o : Options) (currentNS ns : String) (config : Bool)
    (cfg : Config) (evs : List Event)
    (hclient : env.lazyCreateKubeClientAndNamespace = .ok currentNS)
    (hconfig : env.createKubeConfig = .ok config) (hcfg : env.loadConfig = .ok cfg)
    (htarget : Run.target env o currentNS = ((ns, none), evs))
    (hview : ns = "" ∨ ns = currentNS) :
    (Run env o).outcome = .returned none ∧
    (Run env o).config = some cfg ∧
    (∀ e ∈ (Run env o).events,
      e.isGet = false ∧ e.isCreate = false ∧ e.isModifyConfig = false) ∧
    (∃ format rest, (Run env o).events = evs ++ [.infof format (currentNS :: rest)]) := by
  have hcond : ¬ (ns ≠ "" ∧ ns ≠ currentNS) := by
    rintro ⟨h1, h2⟩
    rcases hview with h | h
    · exact h1 h
    · exact h2 h
  have hreport : (if currentNS ≠ "" then currentNS else ns) = currentNS := by
    by_cases hc : currentNS = ""
    · rcases hview with h | h
      · simp [hc, h]
      · simp [h]
    · simp [hc]
  have hevs := target_events env o currentNS
  rw [htarget] at hevs
  have hswitch : Run.switch env o currentNS config cfg ns =
      if config = false then
        ⟨.returned none, some cfg,
          [.infof "Using namespace '%s' on server '%s'. No context - probably a unit test or pod?\n"
            [currentNS, CurrentServer cfg]]⟩
      else
        ⟨.returned none, some cfg,
          [.infof "Using namespace '%s' from context named '%s' on server '%s'.\n"
            [currentNS, cfg.CurrentContext, CurrentServer cfg]]⟩ := by
    unfold Run.switch
    rw [if_neg hcond]
    simp only [hreport]
  have hrun : Run env o = { Run.switch env o currentNS config cfg ns with
      events := evs ++ (Run.switch env o currentNS config cfg ns).events } := by
    unfold Run
    simp only [hclient, hconfig, hcfg, htarget]
  rw [hrun, hswitch]
  cases config with
  | false =>
    refine ⟨rfl, rfl, ?_, _, _, rfl⟩
    intro e he
    rcases List.mem_append.1 he with he | he
    · exact hevs e he
    · rcases List.mem_singleton.1 he with rfl
      simp [Event.isGet, Event.isCreate, Event.isModifyConfig]
  | true =>
    refine ⟨rfl, rfl, ?_, _, _, rfl⟩
    intro e he
    rcases List.mem_append.1 he with he | he
    · exact hevs e he
    · rcases List.mem_singleton.1 he with rfl
      simp [Event.isGet, Event.isCreate, Event.isModifyConfig]

/-- C10 at two command lines on `dev`: `jx --batch-mode ns` and `jx ns dev`. -/
theorem Run_view_read_only_witness :
    ((Run (sampleEnv none none) ⟨[], false, false, true⟩).outcome = .returned none ∧
      (Run (sampleEnv none none) ⟨[], false, false, true⟩).config = some sampleConfig ∧
      (∀ e ∈ (Run (sampleEnv none none) ⟨[], false, false, true⟩).events,
        e.isGet = false ∧ e.isCreate = false ∧ e.isModifyConfig = false) ∧
      (∃ format rest, (Run (sampleEnv none none) ⟨[], false, false, true⟩).events
        = [] ++ [.infof format ("dev" :: rest)])) ∧
    ((Run (sampleEnv none none) ⟨["dev"], false, false, false⟩).outcome = .returned none ∧
      (Run (sampleEnv none none) ⟨["dev"], false, false, false⟩).config = some sampleConfig ∧
      (∀ e ∈ (Run (sampleEnv none none) ⟨["dev"], false, false, false⟩).events,
        e.isGet = false ∧ e.isCreate = false ∧ e.isModifyConfig = false) ∧
      (∃ format rest, (Run (sampleEnv none none) ⟨["dev"], false, false, false⟩).events
        = [] ++ [.infof format ("dev" :: rest)])) :=
  ⟨Run_view_read_only (sampleEnv none none) ⟨[], false, false, true⟩ "dev" "" true sampleConfig
      [] rfl rfl rfl (by decide) (Or.inl rfl),
    Run_view_read_only (sampleEnv none none) ⟨["dev"], false, false, false⟩ "dev" "dev" true
      sampleConfig [] rfl rfl rfl (by decide) (Or.inr rfl)⟩

end Jx
